import Mathlib

/-!
Verification development for the per-tenant container provisioning manager
(`DockerManager` in `test.py`).  The Python code is shallowly embedded:

* the container runtime (Docker daemon) is an oracle `DockerEnv` giving the
  outcome of every administrative API call;
* exceptions are the inductive `PyExc`, mirroring the relevant part of the
  `docker.errors` class hierarchy (`ImageNotFound <: NotFound <: APIError`,
  `BuildError` outside `APIError`, plus generic `Exception`/`RuntimeError`);
* every runtime call is recorded in an event trace, and the relational
  persistence layer is a `DBState` (committed rows, session-pending rows,
  and a commit counter), threaded explicitly through each function.
-/

/-- Exceptions as raised/caught by the Python code.  The predicates below
encode the `docker.errors` subclass relationships used by the `except`
clauses: `ImageNotFound` is a subclass of `NotFound`, which is a subclass
of `APIError`; `BuildError` is not an `APIError`; `RuntimeError` and
generic `Exception` are unrelated to the docker hierarchy. -/
inductive PyExc where
  | notFound : PyExc
  | imageNotFound : PyExc
  | apiError : String → PyExc
  | buildError : String → PyExc
  | runtimeError : String → PyExc
  | generic : String → PyExc
deriving DecidableEq, Repr

deriving instance DecidableEq for Except

/-- Membership in `docker.errors.NotFound` (includes subclass `ImageNotFound`). -/
def PyExc.isNotFound : PyExc → Bool
  | .notFound => true
  | .imageNotFound => true
  | _ => false

/-- Membership in `docker.errors.ImageNotFound`. -/
def PyExc.isImageNotFound : PyExc → Bool
  | .imageNotFound => true
  | _ => false

/-- Membership in `docker.errors.APIError` (includes subclasses `NotFound`
and `ImageNotFound`). -/
def PyExc.isAPIError : PyExc → Bool
  | .notFound => true
  | .imageNotFound => true
  | .apiError _ => true
  | _ => false

/-- Membership in `docker.errors.BuildError`. -/
def PyExc.isBuildError : PyExc → Bool
  | .buildError _ => true
  | _ => false

/-- The `str(e)` rendering used when the code wraps an exception message. -/
def PyExc.msg : PyExc → String
  | .notFound => "not found"
  | .imageNotFound => "image not found"
  | .apiError m => m
  | .buildError m => m
  | .runtimeError m => m
  | .generic m => m

/-- Modelled from the spec: the persisted `TenantContainerRecord` row
(`ContainerManager` model, `models/container_manager.py`, which is not part
of the provided sources).  Fields follow spec section 3 and the keyword
arguments used at the construction sites in `create_container`. -/
structure Record where
  user_id : Nat
  container_id : String
  port : Nat
  db_name : String
  plan : String
  status : String
deriving DecidableEq, Repr

/-- Relational persistence with SQLAlchemy-style session semantics:
`committed` rows are durable, `pending` rows have been `session.add`ed but
not committed, and `commitCount` counts the `session.commit()` calls. -/
structure DBState where
  committed : List Record
  pending : List Record
  commitCount : Nat
deriving DecidableEq, Repr

/-- The specification of a `containers.run(...)` call: image, requested
name, environment variables, volume binds `(volume, mountpoint, mode)`,
port mappings (container port key to optional host port), restart policy
and network. -/
structure RunSpec where
  image : String
  name : String
  environment : List (String × String)
  volumes : List (String × String × String)
  ports : List (String × Option Nat)
  restartPolicy : String
  network : String
deriving DecidableEq, Repr

/-- One observable call to the container runtime's administrative API. -/
inductive Event where
  | networksGet (name : String)
  | networksCreate (name : String)
  | containersList (nameFilter : String)
  | containerRemoveForce (name : String)
  | volumesList (nameFilter : String)
  | volumesCreate (name : String)
  | imagesGet (tag : String)
  | imagesBuild (tag : String)
  | containersRun (spec : RunSpec)
  | containersGet (name : String)
  | lifecycle (action : String) (name : String)
deriving DecidableEq, Repr

/-- Program state threaded through the embedded functions: the persistence
layer plus the trace of runtime API calls issued so far. -/
structure PState where
  dbSt : DBState
  trace : List Event
deriving DecidableEq, Repr

/-- The container runtime as an oracle: for each administrative call, the
outcome the daemon would give.  `containersRun` returns the runtime-assigned
container name; `containersList` returns the names matching the filter;
`volumesList` is modelled as total (a plain listing).  `cwd` models
`os.getcwd()`. -/
structure DockerEnv where
  networksGet : String → Except PyExc Unit
  networksCreate : String → Except PyExc Unit
  containersList : String → Except PyExc (List String)
  containerRemove : String → Except PyExc Unit
  volumesList : String → List String
  volumesCreate : String → Except PyExc Unit
  imagesGet : String → Except PyExc Unit
  buildImage : String → Except PyExc Unit
  containersRun : RunSpec → Except PyExc String
  containersGet : String → Except PyExc Unit
  containerAction : String → String → Except PyExc Unit
  cwd : String

/-- Append one runtime API call to the trace. -/
def logEvent (e : Event) (s : PState) : PState :=
  { s with trace := s.trace ++ [e] }

/-- Stage a row in the session (`db.session.add`). -/
def session_add (r : Record) (s : PState) : PState :=
  { s with dbSt := { s.dbSt with pending := s.dbSt.pending ++ [r] } }

/-- Commit the session (`db.session.commit`): all pending rows become
committed in one transaction. -/
def session_commit (s : PState) : PState :=
  { s with dbSt := { committed := s.dbSt.committed ++ s.dbSt.pending,
                     pending := [],
                     commitCount := s.dbSt.commitCount + 1 } }

/-- Modelled from the spec: `ContainerManager.update_status` (in
`models/container_manager.py`, not among the provided sources) sets the
persisted record's `status` field (spec section 4.5: "update the persisted
`status` to the corresponding ... value"). -/
def update_status (container_id status : String) (s : PState) : PState :=
  { s with dbSt := { s.dbSt with
      committed := s.dbSt.committed.map fun r =>
        if r.container_id == container_id then { r with status := status } else r } }

/-- Delete the row for `container_id` (`db.session.delete`; the removal is
made durable by the accompanying `session_commit` at the call sites). -/
def session_delete (container_id : String) (s : PState) : PState :=
  { s with dbSt := { s.dbSt with
      committed := s.dbSt.committed.filter fun r => !(r.container_id == container_id) } }

/-- `DockerManager._get_compose_file`: plan-specific compose file path
(computed from `os.getcwd()`; never consumed by the deployment calls). -/
def _get_compose_file (cwd plan : String) : String :=
  cwd ++ "/plan_" ++ plan ++ "/docker-compose_" ++ plan ++ ".yml"

/-- `DockerManager._generate_unique_config`: derive `(port, db_name,
project_name)` from the tenant id. -/
def _generate_unique_config (user_id : Nat) : Nat × String × String :=
  (5000 + user_id, "db_" ++ Nat.repr user_id, "cyber_" ++ Nat.repr user_id)

/-- The port-scanning loop body of `_get_next_available_port`: try each
port in ascending order, `avail` standing for `_is_port_available`. -/
def port_scan (avail : Nat → Bool) : Nat → Nat → Option Nat
  | _, 0 => none
  | p, fuel + 1 => if avail p then some p else port_scan avail (p + 1) fuel

/-- `DockerManager._get_next_available_port`: first available port in
`[start_port, start_port + max_attempts)`, else `RuntimeError`. -/
def _get_next_available_port (avail : Nat → Bool) (start_port max_attempts : Nat) :
    Except PyExc Nat :=
  match port_scan avail start_port max_attempts with
  | some p => .ok p
  | none => .error (.runtimeError ("No available ports found in range " ++
      Nat.repr start_port ++ "-" ++ Nat.repr (start_port + max_attempts)))

/-- The shared network-ensuring prelude of both deploy functions:
`networks.get`, and on `NotFound` a `networks.create`; any other error from
the `get`, and any error from the `create`, propagates. -/
def ensure_network (env : DockerEnv) (network_name : String) (s : PState) :
    Except PyExc Unit × PState :=
  let s1 := logEvent (.networksGet network_name) s
  match env.networksGet network_name with
  | .ok _ => (.ok (), s1)
  | .error e =>
    if e.isNotFound then
      let s2 := logEvent (.networksCreate network_name) s1
      (env.networksCreate network_name, s2)
    else (.error e, s1)

/-- The removal loop over the containers matching the name filter
(`for cont in existing: cont.remove(force=True)`). -/
def remove_existing (env : DockerEnv) : List String → PState → Except PyExc Unit × PState
  | [], s => (.ok (), s)
  | n :: rest, s =>
    let s1 := logEvent (.containerRemoveForce n) s
    match env.containerRemove n with
    | .error e => (.error e, s1)
    | .ok _ => remove_existing env rest s1

/-- Wrap an escaping `docker.errors.APIError` into a generic `Exception`
with the given message, as the `except docker.errors.APIError` clauses do;
non-`APIError` exceptions pass through unchanged. -/
def wrap_api_error (intro : String) (r : Except PyExc String × PState) :
    Except PyExc String × PState :=
  match r with
  | (.error e, s) =>
    if e.isAPIError then (.error (.generic (intro ++ e.msg)), s) else (.error e, s)
  | ok => ok

/-- The `containers.run` specification issued by `deploy_postgres_container`. -/
def postgres_run_spec (project db_password db_name : String) : RunSpec :=
  { image := "postgres:latest"
    name := project ++ "_postgres"
    environment := [("POSTGRES_USER", "postgres"),
                    ("POSTGRES_PASSWORD", db_password),
                    ("POSTGRES_DB", db_name)]
    volumes := [(project ++ "_postgres_data", "/var/lib/postgresql/data", "rw")]
    ports := [("5432/tcp", none)]
    restartPolicy := "unless-stopped"
    network := project ++ "_network" }

/-- The `containers.run` specification issued by `deploy_main_container`. -/
def main_run_spec (project : String) (host_port : Nat) (db_password db_name : String) :
    RunSpec :=
  { image := project ++ "_cyber:latest"
    name := project ++ "_cyber"
    environment := [("SQLALCHEMY_DATABASE_URI",
                      "postgresql://postgres:" ++ db_password ++ "@" ++ project ++
                        "_postgres/" ++ db_name),
                    ("POSTGRES_HOST", project ++ "_postgres"),
                    ("POSTGRES_USER", "postgres"),
                    ("POSTGRES_PASSWORD", db_password),
                    ("POSTGRES_DB", db_name)]
    volumes := []
    ports := [("5000", some host_port)]
    restartPolicy := "unless-stopped"
    network := project ++ "_network" }

/-- `DockerManager.build_main_image`: build `{project}_cyber:latest`,
re-raising `BuildError` and `APIError` as generic `Exception`s. -/
def build_main_image (env : DockerEnv) (project : String) (s : PState) :
    Except PyExc Unit × PState :=
  let tag := project ++ "_cyber:latest"
  let s1 := logEvent (.imagesBuild tag) s
  match env.buildImage tag with
  | .ok _ => (.ok (), s1)
  | .error e =>
    if e.isBuildError then
      (.error (.generic ("Failed to build image for " ++ project ++ ": " ++ e.msg)), s1)
    else if e.isAPIError then
      (.error (.generic ("Docker API error during build for " ++ project ++ ": " ++ e.msg)), s1)
    else (.error e, s1)

/-- The `try` block of `deploy_postgres_container`: remove same-named
containers, ensure the data volume, and run the database container. -/
def deploy_postgres_try (env : DockerEnv) (project db_password db_name : String)
    (s1 : PState) : Except PyExc String × PState :=
  let container_name := project ++ "_postgres"
  let s2 := logEvent (.containersList container_name) s1
  match env.containersList container_name with
  | .error e => (.error e, s2)
  | .ok existing =>
    match remove_existing env existing s2 with
    | (.error e, s3) => (.error e, s3)
    | (.ok _, s3) =>
      let volume_name := project ++ "_postgres_data"
      let s4 := logEvent (.volumesList volume_name) s3
      let proceed (s' : PState) : Except PyExc String × PState :=
        let s5 := logEvent (.containersRun (postgres_run_spec project db_password db_name)) s'
        (env.containersRun (postgres_run_spec project db_password db_name), s5)
      if env.volumesList volume_name = [] then
        let s5 := logEvent (.volumesCreate volume_name) s4
        match env.volumesCreate volume_name with
        | .error e => (.error e, s5)
        | .ok _ => proceed s5
      else proceed s4

/-- `DockerManager.deploy_postgres_container`: ensure the network, then run
the `try` block; an `APIError` inside the `try` is re-raised as
`Exception("Failed to deploy Postgres: ...")`.  Returns the runtime-assigned
container name. -/
def deploy_postgres_container (env : DockerEnv) (project db_password db_name : String)
    (s : PState) : Except PyExc String × PState :=
  let network_name := project ++ "_network"
  match ensure_network env network_name s with
  | (.error e, s1) => (.error e, s1)
  | (.ok _, s1) =>
    wrap_api_error "Failed to deploy Postgres: "
      (deploy_postgres_try env project db_password db_name s1)

/-- The `try` block of `deploy_main_container`: ensure the image (building
it on `ImageNotFound`), remove same-named containers, and run the
application container. -/
def deploy_main_try (env : DockerEnv) (project : String) (host_port : Nat)
    (db_password db_name : String) (s1 : PState) : Except PyExc String × PState :=
  let container_name := project ++ "_cyber"
  let tag := project ++ "_cyber:latest"
  let s2 := logEvent (.imagesGet tag) s1
  let afterImage : Except PyExc Unit × PState :=
    match env.imagesGet tag with
    | .ok _ => (.ok (), s2)
    | .error e =>
      if e.isImageNotFound then build_main_image env project s2
      else (.error e, s2)
  match afterImage with
  | (.error e, s3) => (.error e, s3)
  | (.ok _, s3) =>
    let s4 := logEvent (.containersList container_name) s3
    match env.containersList container_name with
    | .error e => (.error e, s4)
    | .ok existing =>
      match remove_existing env existing s4 with
      | (.error e, s5) => (.error e, s5)
      | (.ok _, s5) =>
        let spec := main_run_spec project host_port db_password db_name
        let s6 := logEvent (.containersRun spec) s5
        (env.containersRun spec, s6)

/-- `DockerManager.deploy_main_container`: ensure the network, then run the
`try` block; an `APIError` inside the `try` is re-raised as
`Exception("Failed to deploy main app: ...")`.  Returns the runtime-assigned
container name. -/
def deploy_main_container (env : DockerEnv) (project : String) (host_port : Nat)
    (db_password db_name : String) (s : PState) : Except PyExc String × PState :=
  let network_name := project ++ "_network"
  match ensure_network env network_name s with
  | (.error e, s1) => (.error e, s1)
  | (.ok _, s1) =>
    wrap_api_error "Failed to deploy main app: "
      (deploy_main_try env project host_port db_password db_name s1)

/-- `DockerManager.create_container`: derive the per-tenant config, compute
the (unused) compose-file path, deploy the database and application
containers, persist one record per container, commit both together, and
return the application container's runtime-assigned name; any exception is
caught at the top level and yields `none`. -/
def create_container (env : DockerEnv) (user_id : Nat) (plan : String) (s : PState) :
    Option String × PState :=
  let cfg := _generate_unique_config user_id
  let port := cfg.1
  let db_name := cfg.2.1
  let project_name := cfg.2.2
  let _compose_file := _get_compose_file env.cwd plan
  match deploy_postgres_container env project_name "db1" db_name s with
  | (.error _, s1) => (none, s1)
  | (.ok pg_name, s1) =>
    match deploy_main_container env project_name port "db1" db_name s1 with
    | (.error _, s2) => (none, s2)
    | (.ok main_name, s2) =>
      let s3 := session_add ⟨user_id, main_name, port, db_name, plan, "running"⟩ s2
      let s4 := session_add ⟨user_id, pg_name, 5432, db_name, plan, "running"⟩ s3
      let s5 := session_commit s4
      (some main_name, s5)

/-- The shared exception handlers of `manage_container`: on a docker
`NotFound` with action `remove` (the record is known to be present at every
raise site), reconcile by updating the status, deleting the row and
committing, and report success; any other exception reports failure. -/
def manage_handle_exc (e : PyExc) (container_id action : String) (s : PState) :
    Bool × PState :=
  if e.isNotFound then
    if action == "remove" then
      (true, session_commit (session_delete container_id
        (update_status container_id "removed" s)))
    else (false, s)
  else (false, s)

/-- `DockerManager.manage_container`: look up the persisted record (absent
record reports failure), fetch the runtime handle, dispatch the lifecycle
action, update the persisted status, and report success; exceptions go
through `manage_handle_exc`. -/
def manage_container (env : DockerEnv) (container_id action : String) (s : PState) :
    Bool × PState :=
  match s.dbSt.committed.find? (fun r => r.container_id == container_id) with
  | none => (false, s)
  | some _ =>
    let s1 := logEvent (.containersGet container_id) s
    match env.containersGet container_id with
    | .error e => manage_handle_exc e container_id action s1
    | .ok _ =>
      if action == "start" then
        let s2 := logEvent (.lifecycle "start" container_id) s1
        match env.containerAction "start" container_id with
        | .error e => manage_handle_exc e container_id action s2
        | .ok _ => (true, update_status container_id "running" s2)
      else if action == "stop" then
        let s2 := logEvent (.lifecycle "stop" container_id) s1
        match env.containerAction "stop" container_id with
        | .error e => manage_handle_exc e container_id action s2
        | .ok _ => (true, update_status container_id "stopped" s2)
      else if action == "remove" then
        let s2 := logEvent (.lifecycle "remove" container_id) s1
        match env.containerAction "remove" container_id with
        | .error e => manage_handle_exc e container_id action s2
        | .ok _ =>
          (true, session_commit (session_delete container_id
            (update_status container_id "removed" s2)))
      else if action == "restart" then
        let s2 := logEvent (.lifecycle "restart" container_id) s1
        match env.containerAction "restart" container_id with
        | .error e => manage_handle_exc e container_id action s2
        | .ok _ => (true, update_status container_id "running" s2)
      else (true, s1)

/-- The CPU-percentage computation of `get_container_stats`: deltas of the
container and host CPU counters between the two snapshots, with the
division guarded by `system_delta > 0`.  Real arithmetic is modelled by
`ℚ`. -/
def cpu_usage_calc (total_usage pre_total_usage system_cpu_usage pre_system_cpu_usage : Int) :
    ℚ :=
  let cpu_delta : Int := total_usage - pre_total_usage
  let system_delta : Int := system_cpu_usage - pre_system_cpu_usage
  if system_delta > 0 then ((cpu_delta : ℚ) / (system_delta : ℚ)) * 100 else 0

/-- Erase the `plan` field of a record (used to state that `plan` influences
nothing else). -/
def stripPlan (r : Record) : Record := { r with plan := "" }

/-- Numeric value of a decimal digit character. -/
def charVal (c : Char) : Nat := c.toNat - 48

/-- Value of a big-endian decimal digit string. -/
def digitsVal (l : List Char) : Nat := l.foldl (fun a c => 10 * a + charVal c) 0

/-- Structural big-endian decimal digits of a natural number (reference
version of `Nat.toDigits 10`). -/
def natDigits (n : Nat) : List Char :=
  if _h : n < 10 then [Nat.digitChar n]
  else natDigits (n / 10) ++ [Nat.digitChar (n % 10)]
decreasing_by exact Nat.div_lt_self (by omega) (by omega)

/-- A runtime oracle where provisioning succeeds: the network does not
exist yet, no same-named containers or volumes exist, the image is already
built, and every call succeeds, `containers.run` assigning the requested
name. -/
def happyEnv : DockerEnv :=
  { networksGet := fun _ => .error .notFound
    networksCreate := fun _ => .ok ()
    containersList := fun _ => .ok []
    containerRemove := fun _ => .ok ()
    volumesList := fun _ => []
    volumesCreate := fun _ => .ok ()
    imagesGet := fun _ => .ok ()
    buildImage := fun _ => .ok ()
    containersRun := fun spec => .ok spec.name
    containersGet := fun _ => .ok ()
    containerAction := fun _ _ => .ok ()
    cwd := "/srv/app" }

/-- A runtime oracle where container lookups and actions report the
container as absent. -/
def goneEnv : DockerEnv :=
  { happyEnv with
    containersGet := fun _ => .error .notFound
    containerAction := fun _ _ => .error .notFound }

/-- A runtime oracle where `containers.run` fails with an `APIError`. -/
def failEnv : DockerEnv :=
  { happyEnv with containersRun := fun _ => .error (.apiError "boom") }

/-- Empty initial state: no rows, no pending session work, empty trace. -/
def s0 : PState := { dbSt := { committed := [], pending := [], commitCount := 0 }, trace := [] }

/-- A sample persisted application-container record. -/
def sampleRecord : Record :=
  { user_id := 7, container_id := "cyber_7_cyber", port := 5007, db_name := "db_7",
    plan := "basic", status := "running" }

/-- State holding exactly the sample record. -/
def s1 : PState :=
  { dbSt := { committed := [sampleRecord], pending := [], commitCount := 0 }, trace := [] }

/-! Auxiliary lemmas: correctness and injectivity of the decimal rendering
`Nat.repr` used by the tenant-id string interpolations. -/

theorem charVal_digitChar : ∀ d, d < 10 → charVal (Nat.digitChar d) = d := by decide

theorem digitsVal_append_singleton (l : List Char) (c : Char) :
    digitsVal (l ++ [c]) = 10 * digitsVal l + charVal c := by
  simp [digitsVal, List.foldl_append]

theorem digitsVal_natDigits (n : Nat) : digitsVal (natDigits n) = n := by
  induction n using Nat.strong_induction_on with
  | _ n ih =>
    rw [natDigits]
    split
    · next h =>
      simp [digitsVal, List.foldl]
      exact charVal_digitChar n h
    · next h =>
      rw [digitsVal_append_singleton]
      rw [ih (n / 10) (Nat.div_lt_self (by omega) (by omega))]
      rw [charVal_digitChar (n % 10) (Nat.mod_lt n (by omega))]
      omega

theorem natDigits_injective {a b : Nat} (h : natDigits a = natDigits b) : a = b := by
  have := digitsVal_natDigits a
  rw [h, digitsVal_natDigits] at this
  omega

theorem toDigitsCore_eq_natDigits :
    ∀ (fuel n : Nat) (ds : List Char), n < 10 ^ fuel → 0 < fuel →
      Nat.toDigitsCore 10 fuel n ds = natDigits n ++ ds := by
  intro fuel
  induction fuel with
  | zero => intro n ds _ hpos; omega
  | succ f ih =>
    intro n ds h _
    rw [Nat.toDigitsCore]
    by_cases h10 : n / 10 = 0
    · have hn : n < 10 := by omega
      simp only [h10, if_pos rfl]
      rw [natDigits, dif_pos hn, Nat.mod_eq_of_lt hn]
      rfl
    · simp only [if_neg h10]
      have hlt : n / 10 < 10 ^ f := by
        have : n < 10 ^ f * 10 := by
          rw [← pow_succ]
          exact h
        exact Nat.div_lt_of_lt_mul (by omega)
      have hfpos : 0 < f := by
        by_contra hf
        have : f = 0 := by omega
        subst this
        simp at h
        omega
      rw [ih (n / 10) (Nat.digitChar (n % 10) :: ds) hlt hfpos]
      conv_rhs => rw [natDigits, dif_neg (by omega : ¬ n < 10)]
      simp

theorem natRepr_eq_natDigits (n : Nat) : Nat.repr n = (natDigits n).asString := by
  rw [Nat.repr, Nat.toDigits]
  rw [toDigitsCore_eq_natDigits (n + 1) n [] (by
    calc n < 10 ^ n := Nat.lt_pow_self (by omega) n
    _ ≤ 10 ^ (n + 1) := Nat.pow_le_pow_right (by omega) (Nat.le_succ n)) (by omega)]
  simp

theorem natRepr_injective {a b : Nat} (h : Nat.repr a = Nat.repr b) : a = b := by
  rw [natRepr_eq_natDigits, natRepr_eq_natDigits] at h
  apply natDigits_injective
  have : ((natDigits a).asString).data = ((natDigits b).asString).data := by rw [h]
  simpa [List.asString] using this

theorem string_append_right_inj {a : String} {b c : String}
    (h : a ++ b = a ++ c) : b = c := by
  have hd : (a ++ b).data = (a ++ c).data := by rw [h]
  simp only [String.data_append] at hd
  exact String.ext (List.append_cancel_left hd)

/-- C7: for all tenant identifiers t1 ≠ t2, the derived (port, db_name,
project_name) tuples are pairwise distinct: the port components differ, the
db_name components differ, and the project_name components differ. -/
theorem generate_unique_config_injective (t1 t2 : Nat) (h : t1 ≠ t2) :
    (_generate_unique_config t1).1 ≠ (_generate_unique_config t2).1 ∧
    (_generate_unique_config t1).2.1 ≠ (_generate_unique_config t2).2.1 ∧
    (_generate_unique_config t1).2.2 ≠ (_generate_unique_config t2).2.2 := by
  refine ⟨?_, ?_, ?_⟩ <;> simp only [_generate_unique_config]
  · intro hc
    exact h (by omega)
  · intro hc
    exact h (natRepr_injective (string_append_right_inj hc))
  · intro hc
    exact h (natRepr_injective (string_append_right_inj hc))

/-- Witness for C7 at tenant ids 1 and 2. -/
theorem generate_unique_config_injective_witness :
    (_generate_unique_config 1).1 ≠ (_generate_unique_config 2).1 ∧
    (_generate_unique_config 1).2.1 ≠ (_generate_unique_config 2).2.1 ∧
    (_generate_unique_config 1).2.2 ≠ (_generate_unique_config 2).2.2 :=
  generate_unique_config_injective 1 2 (by decide)

/-- C8: the computed cpu percentage is exactly 0 whenever the system delta
(system_cpu_usage minus its previous value) is zero or negative, for every
cpu delta; when the system delta is positive it equals
(cpu_delta / system_delta) * 100. -/
theorem cpu_usage_calc_spec (t pt sc psc : Int) :
    (sc - psc ≤ 0 → cpu_usage_calc t pt sc psc = 0) ∧
    (0 < sc - psc →
      cpu_usage_calc t pt sc psc = ((t - pt : Int) : ℚ) / ((sc - psc : Int) : ℚ) * 100) := by
  constructor
  · intro h
    simp only [cpu_usage_calc]
    rw [if_neg (by omega)]
  · intro h
    simp only [cpu_usage_calc]
    rw [if_pos (by omega)]

/-- Witness for C8: a positive system delta divides, a negative one yields 0. -/
theorem cpu_usage_calc_spec_witness :
    cpu_usage_calc 4 2 3 1 = 100 ∧ cpu_usage_calc 4 2 1 3 = 0 := by
  constructor
  · rw [(cpu_usage_calc_spec 4 2 3 1).2 (by norm_num)]
    norm_num
  · exact (cpu_usage_calc_spec 4 2 1 3).1 (by norm_num)

/-- C6: the configuration derivation is the pure function
t ↦ (5000 + t, "db_" ++ t, "cyber_" ++ t); tenant 42 yields
(5042, "db_42", "cyber_42"), and a successful provisioning run for tenant
42 creates network cyber_42_network, volume cyber_42_postgres_data, and
containers cyber_42_postgres and cyber_42_cyber. -/
theorem tenant_config_derivation :
    (∀ t : Nat, _generate_unique_config t =
      (5000 + t, "db_" ++ Nat.repr t, "cyber_" ++ Nat.repr t)) ∧
    _generate_unique_config 42 = (5042, "db_42", "cyber_42") ∧
    (create_container happyEnv 42 "basic" s0).1 = some "cyber_42_cyber" ∧
    Event.networksCreate "cyber_42_network" ∈
      (create_container happyEnv 42 "basic" s0).2.trace ∧
    Event.volumesCreate "cyber_42_postgres_data" ∈
      (create_container happyEnv 42 "basic" s0).2.trace ∧
    Event.containersRun (postgres_run_spec "cyber_42" "db1" "db_42") ∈
      (create_container happyEnv 42 "basic" s0).2.trace ∧
    Event.containersRun (main_run_spec "cyber_42" 5042 "db1" "db_42") ∈
      (create_container happyEnv 42 "basic" s0).2.trace ∧
    (postgres_run_spec "cyber_42" "db1" "db_42").name = "cyber_42_postgres" ∧
    (main_run_spec "cyber_42" 5042 "db1" "db_42").name = "cyber_42_cyber" := by
  refine ⟨fun t => rfl, ?_, ?_, ?_, ?_, ?_, ?_, ?_, ?_⟩ <;> decide

/-- Soundness of the scanning loop: a returned port is in range, available,
and least such. -/
theorem port_scan_some_spec (avail : Nat → Bool) :
    ∀ fuel start p, port_scan avail start fuel = some p →
      start ≤ p ∧ p < start + fuel ∧ avail p = true ∧
        ∀ q, start ≤ q → q < p → avail q = false := by
  intro fuel
  induction fuel with
  | zero => intro start p h; simp [port_scan] at h
  | succ f ih =>
    intro start p h
    rw [port_scan] at h
    by_cases hav : avail start = true
    · rw [if_pos hav] at h
      cases h
      exact ⟨Nat.le_refl _, by omega, hav, fun q hq1 hq2 => by omega⟩
    · rw [if_neg hav] at h
      obtain ⟨h1, h2, h3, h4⟩ := ih (start + 1) p h
      refine ⟨by omega, by omega, h3, fun q hq1 hq2 => ?_⟩
      by_cases hq : q = start
      · subst hq
        exact Bool.not_eq_true _ ▸ (by simpa using hav)
      · exact h4 q (by omega) hq2

/-- The scanning loop returns `none` exactly when no port in the window is
available. -/
theorem port_scan_none_iff (avail : Nat → Bool) :
    ∀ fuel start, port_scan avail start fuel = none ↔
      ∀ q, start ≤ q → q < start + fuel → avail q = false := by
  intro fuel
  induction fuel with
  | zero =>
    intro start
    simp [port_scan]
    intro q h1 h2
    omega
  | succ f ih =>
    intro start
    rw [port_scan]
    by_cases hav : avail start = true
    · rw [if_pos hav]
      simp only [iff_iff_implies_and_implies]
      constructor
      · intro h
        cases h
      · intro h
        have := h start (Nat.le_refl _) (by omega)
        rw [hav] at this
        cases this
    · rw [if_neg hav]
      rw [ih (start + 1)]
      constructor
      · intro h q hq1 hq2
        by_cases hq : q = start
        · subst hq
          simpa using hav
        · exact h q (by omega) (by omega)
      · intro h q hq1 hq2
        exact h q (by omega) (by omega)

/-- C5: _get_next_available_port returns the lowest port p with
start_port ≤ p < start_port + max_attempts on which a bind succeeds, and
fails with the port-exhaustion error (the RuntimeError the spec's taxonomy
calls NoAvailablePortError) when every port in the range is unavailable. -/
theorem get_next_available_port_spec (avail : Nat → Bool) (start_port max_attempts : Nat) :
    (∀ p, _get_next_available_port avail start_port max_attempts = .ok p →
      start_port ≤ p ∧ p < start_port + max_attempts ∧ avail p = true ∧
        ∀ q, start_port ≤ q → q < p → avail q = false) ∧
    ((∃ p, start_port ≤ p ∧ p < start_port + max_attempts ∧ avail p = true) →
      ∃ p, _get_next_available_port avail start_port max_attempts = .ok p) ∧
    ((∀ p, start_port ≤ p → p < start_port + max_attempts → avail p = false) →
      _get_next_available_port avail start_port max_attempts =
        .error (.runtimeError ("No available ports found in range " ++
          Nat.repr start_port ++ "-" ++ Nat.repr (start_port + max_attempts)))) := by
  refine ⟨?_, ?_, ?_⟩
  · intro p h
    rw [_get_next_available_port] at h
    cases hscan : port_scan avail start_port max_attempts with
    | none => rw [hscan] at h; cases h
    | some q =>
      rw [hscan] at h
      injection h with hh
      subst hh
      exact port_scan_some_spec avail max_attempts start_port q hscan
  · intro ⟨p, hp1, hp2, hp3⟩
    rw [_get_next_available_port]
    cases hscan : port_scan avail start_port max_attempts with
    | none =>
      have := (port_scan_none_iff avail max_attempts start_port).mp hscan p hp1 hp2
      rw [hp3] at this
      cases this
    | some q => exact ⟨q, rfl⟩
  · intro h
    rw [_get_next_available_port]
    cases hscan : port_scan avail start_port max_attempts with
    | none => rfl
    | some q =>
      obtain ⟨h1, h2, h3, _⟩ := port_scan_some_spec avail max_attempts start_port q hscan
      have := h q h1 h2
      rw [h3] at this
      cases this

/-- Witness for C5: with only port 5002 bindable the scan returns 5002
(lowest in range), and an exhausted window raises the exhaustion error. -/
theorem get_next_available_port_spec_witness :
    (5000 ≤ 5002 ∧ 5002 < 5000 + 100 ∧ (fun p => p == 5002) 5002 = true) ∧
    _get_next_available_port (fun _ => false) 6000 3 =
      .error (.runtimeError ("No available ports found in range " ++
        Nat.repr 6000 ++ "-" ++ Nat.repr (6000 + 3))) := by
  constructor
  · have h := (get_next_available_port_spec (fun p => p == 5002) 5000 100).1 5002 (by decide)
    exact ⟨h.1, h.2.1, h.2.2.1⟩
  · exact (get_next_available_port_spec (fun _ => false) 6000 3).2.2 (fun p _ _ => rfl)

/-- Updating the status of the rows matching `cid` does not change the
result of then deleting those rows. -/
theorem filter_map_status (cid st : String) (l : List Record) :
    (l.map fun r =>
        if r.container_id == cid then { r with status := st } else r).filter
      (fun r => !(r.container_id == cid)) =
    l.filter (fun r => !(r.container_id == cid)) := by
  induction l with
  | nil => rfl
  | cons a t ih =>
    by_cases h : a.container_id = cid
    · simp [h]
      simpa using ih
    · simp [h]
      simpa using ih

/-- After deleting the rows matching `cid`, no row matching `cid` is found. -/
theorem find_after_delete (cid : String) (l : List Record) :
    (l.filter fun r => !(r.container_id == cid)).find?
      (fun r => r.container_id == cid) = none := by
  induction l with
  | nil => rfl
  | cons a t ih =>
    by_cases h : a.container_id = cid
    · simp [h]
    · simp [h]

/-- The exception handlers of `manage_container` either reconcile (success)
or leave the state untouched (failure). -/
theorem manage_handle_exc_cases (e : PyExc) (cid act : String) (s : PState) :
    manage_handle_exc e cid act s =
      (true, session_commit (session_delete cid (update_status cid "removed" s))) ∨
    manage_handle_exc e cid act s = (false, s) := by
  unfold manage_handle_exc
  by_cases h1 : e.isNotFound = true
  · by_cases h2 : (act == "remove") = true
    · left; rw [if_pos h1, if_pos h2]
    · right; rw [if_pos h1, if_neg h2]
  · right; rw [if_neg h1]

/-- Dichotomy: `manage_container` either reports success or leaves the
persistence layer untouched. -/
theorem manage_container_cases (env : DockerEnv) (cid act : String) (s : PState) :
    (manage_container env cid act s).1 = true ∨
    (manage_container env cid act s).2.dbSt = s.dbSt := by
  unfold manage_container
  split
  · right; rfl
  · split
    · next e _ =>
      rcases manage_handle_exc_cases e cid act (logEvent (.containersGet cid) s) with h | h
      · left; rw [h]
      · right; rw [h]; rfl
    · split
      · split
        · next e _ =>
          rcases manage_handle_exc_cases e cid act
            (logEvent (.lifecycle "start" cid) (logEvent (.containersGet cid) s)) with h | h
          · left; rw [h]
          · right; rw [h]; rfl
        · left; rfl
      · split
        · split
          · next e _ =>
            rcases manage_handle_exc_cases e cid act
              (logEvent (.lifecycle "stop" cid) (logEvent (.containersGet cid) s)) with h | h
            · left; rw [h]
            · right; rw [h]; rfl
          · left; rfl
        · split
          · split
            · next e _ =>
              rcases manage_handle_exc_cases e cid act
                (logEvent (.lifecycle "remove" cid) (logEvent (.containersGet cid) s)) with h | h
              · left; rw [h]
              · right; rw [h]; rfl
            · left; rfl
          · split
            · split
              · next e _ =>
                rcases manage_handle_exc_cases e cid act
                  (logEvent (.lifecycle "restart" cid) (logEvent (.containersGet cid) s)) with h | h
                · left; rw [h]
                · right; rw [h]; rfl
              · left; rfl
            · left; rfl

/-- C3: when the persisted record exists, the runtime reports not-found and
the action is remove, manage_container treats the container as already
removed: it updates the status, deletes the persisted record, commits, and
returns True; afterwards no record with that container_id remains. -/
theorem manage_container_reconcile (env : DockerEnv) (cid : String) (s : PState) (r : Record)
    (hpend : s.dbSt.pending = [])
    (hrec : s.dbSt.committed.find? (fun x => x.container_id == cid) = some r)
    (e : PyExc) (hget : env.containersGet cid = .error e) (hnf : e.isNotFound = true) :
    (manage_container env cid "remove" s).1 = true ∧
    (manage_container env cid "remove" s).2.dbSt.committed =
      s.dbSt.committed.filter (fun x => !(x.container_id == cid)) ∧
    (manage_container env cid "remove" s).2.dbSt.commitCount = s.dbSt.commitCount + 1 ∧
    (manage_container env cid "remove" s).2.dbSt.committed.find?
      (fun x => x.container_id == cid) = none := by
  have hm : manage_container env cid "remove" s =
      (true, session_commit (session_delete cid (update_status cid "removed"
        (logEvent (.containersGet cid) s)))) := by
    unfold manage_container
    rw [hrec, hget]
    dsimp only
    unfold manage_handle_exc
    rw [hnf]
    simp
  rw [hm]
  refine ⟨rfl, ?_, rfl, ?_⟩
  · simp [session_commit, session_delete, update_status, logEvent, hpend]
    simpa using filter_map_status cid "removed" s.dbSt.committed
  · simp [session_commit, session_delete, update_status, logEvent, hpend, filter_map_status,
      find_after_delete]

/-- Witness for C3: removing a runtime-absent but persisted container. -/
theorem manage_container_reconcile_witness :
    (manage_container goneEnv "cyber_7_cyber" "remove" s1).1 = true ∧
    (manage_container goneEnv "cyber_7_cyber" "remove" s1).2.dbSt.committed =
      s1.dbSt.committed.filter (fun x => !(x.container_id == "cyber_7_cyber")) ∧
    (manage_container goneEnv "cyber_7_cyber" "remove" s1).2.dbSt.commitCount =
      s1.dbSt.commitCount + 1 ∧
    (manage_container goneEnv "cyber_7_cyber" "remove" s1).2.dbSt.committed.find?
      (fun x => x.container_id == "cyber_7_cyber") = none :=
  manage_container_reconcile goneEnv "cyber_7_cyber" s1 sampleRecord rfl (by decide)
    PyExc.notFound rfl rfl

/-- C4: manage_container returns False and leaves persistence unchanged in
every failure case: absent record, runtime not-found with an action other
than remove, and any other runtime error; no partial status update is
committed on failure. -/
theorem manage_container_failure (env : DockerEnv) (cid act : String) (s : PState) :
    ((manage_container env cid act s).1 = false →
      (manage_container env cid act s).2.dbSt = s.dbSt) ∧
    (s.dbSt.committed.find? (fun x => x.container_id == cid) = none →
      manage_container env cid act s = (false, s)) ∧
    (∀ r e, s.dbSt.committed.find? (fun x => x.container_id == cid) = some r →
      env.containersGet cid = .error e → e.isNotFound = true → act ≠ "remove" →
      (manage_container env cid act s).1 = false) ∧
    (∀ r e, s.dbSt.committed.find? (fun x => x.container_id == cid) = some r →
      env.containersGet cid = .error e → e.isNotFound = false →
      (manage_container env cid act s).1 = false) := by
  refine ⟨?_, ?_, ?_, ?_⟩
  · intro hf
    rcases manage_container_cases env cid act s with h | h
    · rw [h] at hf
      cases hf
    · exact h
  · intro h
    unfold manage_container
    rw [h]
  · intro r e hrec hget hnf hne
    unfold manage_container
    rw [hrec, hget]
    dsimp only
    unfold manage_handle_exc
    rw [hnf]
    simp [hne]
  · intro r e hrec hget hnf
    unfold manage_container
    rw [hrec, hget]
    dsimp only
    unfold manage_handle_exc
    rw [hnf]
    simp

/-- Witness for C4: an absent record fails and changes nothing. -/
theorem manage_container_failure_witness :
    manage_container happyEnv "missing" "stop" s0 = (false, s0) :=
  (manage_container_failure happyEnv "missing" "stop" s0).2.1 rfl

/-- C10: with an existing record and a successful runtime lookup, an action
outside start/stop/remove/restart returns True, issues no runtime lifecycle
operation (the trace grows only by the lookup), and leaves the record
untouched. -/
theorem manage_container_unknown_action (env : DockerEnv) (cid act : String) (s : PState)
    (r : Record)
    (hrec : s.dbSt.committed.find? (fun x => x.container_id == cid) = some r)
    (hok : env.containersGet cid = .ok ())
    (h1 : act ≠ "start") (h2 : act ≠ "stop") (h3 : act ≠ "remove") (h4 : act ≠ "restart") :
    (manage_container env cid act s).1 = true ∧
    (manage_container env cid act s).2.dbSt = s.dbSt ∧
    (manage_container env cid act s).2.trace = s.trace ++ [Event.containersGet cid] := by
  have hm : manage_container env cid act s = (true, logEvent (.containersGet cid) s) := by
    unfold manage_container
    rw [hrec, hok]
    dsimp only
    simp [h1, h2, h3, h4]
  rw [hm]
  exact ⟨rfl, rfl, rfl⟩

/-- Witness for C10 at the unknown action "pause". -/
theorem manage_container_unknown_action_witness :
    (manage_container happyEnv "cyber_7_cyber" "pause" s1).1 = true ∧
    (manage_container happyEnv "cyber_7_cyber" "pause" s1).2.dbSt = s1.dbSt ∧
    (manage_container happyEnv "cyber_7_cyber" "pause" s1).2.trace =
      s1.trace ++ [Event.containersGet "cyber_7_cyber"] :=
  manage_container_unknown_action happyEnv "cyber_7_cyber" "pause" s1 sampleRecord
    (by decide) rfl (by decide) (by decide) (by decide) (by decide)

/-- `wrap_api_error` only rewrites the exception value; the state passes
through unchanged. -/
theorem wrap_api_error_snd (m : String) (r : Except PyExc String × PState) :
    (wrap_api_error m r).2 = r.2 := by
  rcases r with ⟨x, s⟩
  cases x with
  | error e =>
    by_cases h : e.isAPIError = true
    · simp [wrap_api_error, h]
    · simp [wrap_api_error, h]
  | ok v => rfl

/-- A successful result passes through `wrap_api_error` unchanged. -/
theorem wrap_api_error_ok (m : String) (r : Except PyExc String × PState) (v : String)
    (h : (wrap_api_error m r).1 = .ok v) : r.1 = .ok v := by
  rcases r with ⟨x, s⟩
  cases x with
  | error e =>
    by_cases he : e.isAPIError = true
    · simp [wrap_api_error, he] at h
    · simp [wrap_api_error, he] at h
  | ok w => simpa [wrap_api_error] using h

/-- The network-ensuring prelude never touches the persistence layer. -/
theorem ensure_network_dbSt (env : DockerEnv) (n : String) (s : PState) :
    ((ensure_network env n s).2).dbSt = s.dbSt := by
  unfold ensure_network
  split
  · rfl
  · split
    · rfl
    · rfl

/-- The container-removal loop never touches the persistence layer. -/
theorem remove_existing_dbSt (env : DockerEnv) :
    ∀ (l : List String) (s : PState), ((remove_existing env l s).2).dbSt = s.dbSt := by
  intro l
  induction l with
  | nil => intro s; rfl
  | cons n rest ih =>
    intro s
    unfold remove_existing
    split
    · rfl
    · exact ih _

/-- Building the image never touches the persistence layer. -/
theorem build_main_image_dbSt (env : DockerEnv) (p : String) (s : PState) :
    ((build_main_image env p s).2).dbSt = s.dbSt := by
  unfold build_main_image
  dsimp only
  split
  · rfl
  · split
    · rfl
    · split
      · rfl
      · rfl

/-- The database-deploy block never touches the persistence layer. -/
theorem deploy_postgres_try_dbSt (env : DockerEnv) (p pw dn : String) (s : PState) :
    ((deploy_postgres_try env p pw dn s).2).dbSt = s.dbSt := by
  unfold deploy_postgres_try
  dsimp only
  split
  · rfl
  · next existing _ =>
    split
    · next e s3 heq =>
      have := remove_existing_dbSt env existing (logEvent (.containersList (p ++ "_postgres")) s)
      rw [heq] at this
      exact this
    · next u s3 heq =>
      have h3 : s3.dbSt = s.dbSt := by
        have := remove_existing_dbSt env existing (logEvent (.containersList (p ++ "_postgres")) s)
        rw [heq] at this
        exact this
      split
      · split
        · exact h3
        · exact h3
      · exact h3

/-- The application-deploy block never touches the persistence layer. -/
theorem deploy_main_try_dbSt (env : DockerEnv) (p : String) (hp : Nat) (pw dn : String)
    (s : PState) : ((deploy_main_try env p hp pw dn s).2).dbSt = s.dbSt := by
  unfold deploy_main_try
  dsimp only
  split
  · next e s3 heq =>
    have hb : ∀ x : Except PyExc Unit × PState,
        (match env.imagesGet (p ++ "_cyber:latest") with
          | .ok _ => (Except.ok (), logEvent (.imagesGet (p ++ "_cyber:latest")) s)
          | .error e =>
            if e.isImageNotFound then
              build_main_image env p (logEvent (.imagesGet (p ++ "_cyber:latest")) s)
            else (.error e, logEvent (.imagesGet (p ++ "_cyber:latest")) s)) = x →
        (x.2).dbSt = s.dbSt := by
      intro x hx
      rw [← hx]
      split
      · rfl
      · split
        · exact build_main_image_dbSt env p _
        · rfl
    exact (by simpa using hb (.error e, s3) heq : s3.dbSt = s.dbSt)
  · next u s3 heq =>
    have hb : ∀ x : Except PyExc Unit × PState,
        (match env.imagesGet (p ++ "_cyber:latest") with
          | .ok _ => (Except.ok (), logEvent (.imagesGet (p ++ "_cyber:latest")) s)
          | .error e =>
            if e.isImageNotFound then
              build_main_image env p (logEvent (.imagesGet (p ++ "_cyber:latest")) s)
            else (.error e, logEvent (.imagesGet (p ++ "_cyber:latest")) s)) = x →
        (x.2).dbSt = s.dbSt := by
      intro x hx
      rw [← hx]
      split
      · rfl
      · split
        · exact build_main_image_dbSt env p _
        · rfl
    have h3 : s3.dbSt = s.dbSt := by simpa using hb (.ok u, s3) heq
    split
    · exact h3
    · next existing _ =>
      split
      · next e s5 heq2 =>
        have := remove_existing_dbSt env existing (logEvent (.containersList (p ++ "_cyber")) s3)
        rw [heq2] at this
        exact this.trans h3
      · next u2 s5 heq2 =>
        have h5 : s5.dbSt = s3.dbSt := by
          have := remove_existing_dbSt env existing (logEvent (.containersList (p ++ "_cyber")) s3)
          rw [heq2] at this
          exact this
        exact h5.trans h3

/-- `deploy_postgres_container` never touches the persistence layer. -/
theorem deploy_postgres_dbSt (env : DockerEnv) (p pw dn : String) (s : PState) :
    ((deploy_postgres_container env p pw dn s).2).dbSt = s.dbSt := by
  unfold deploy_postgres_container
  dsimp only
  split
  · next e s1 heq =>
    have := ensure_network_dbSt env (p ++ "_network") s
    rw [heq] at this
    exact this
  · next u s1 heq =>
    have h1 : s1.dbSt = s.dbSt := by
      have := ensure_network_dbSt env (p ++ "_network") s
      rw [heq] at this
      exact this
    rw [wrap_api_error_snd]
    exact (deploy_postgres_try_dbSt env p pw dn s1).trans h1

/-- `deploy_main_container` never touches the persistence layer. -/
theorem deploy_main_dbSt (env : DockerEnv) (p : String) (hp : Nat) (pw dn : String)
    (s : PState) : ((deploy_main_container env p hp pw dn s).2).dbSt = s.dbSt := by
  unfold deploy_main_container
  dsimp only
  split
  · next e s1 heq =>
    have := ensure_network_dbSt env (p ++ "_network") s
    rw [heq] at this
    exact this
  · next u s1 heq =>
    have h1 : s1.dbSt = s.dbSt := by
      have := ensure_network_dbSt env (p ++ "_network") s
      rw [heq] at this
      exact this
    rw [wrap_api_error_snd]
    exact (deploy_main_try_dbSt env p hp pw dn s1).trans h1

/-- A successful database-deploy block returns exactly the name the
runtime assigned to the `containers.run` call on the database spec. -/
theorem deploy_postgres_try_ok (env : DockerEnv) (p pw dn : String) (s : PState) (nm : String)
    (h : (deploy_postgres_try env p pw dn s).1 = .ok nm) :
    env.containersRun (postgres_run_spec p pw dn) = .ok nm := by
  unfold deploy_postgres_try at h
  dsimp only at h
  split at h
  · simp at h
  · split at h
    · simp at h
    · split at h
      · split at h
        · simp at h
        · exact h
      · exact h

/-- A successful application-deploy block returns exactly the name the
runtime assigned to the `containers.run` call on the application spec. -/
theorem deploy_main_try_ok (env : DockerEnv) (p : String) (hp : Nat) (pw dn : String)
    (s : PState) (nm : String)
    (h : (deploy_main_try env p hp pw dn s).1 = .ok nm) :
    env.containersRun (main_run_spec p hp pw dn) = .ok nm := by
  unfold deploy_main_try at h
  dsimp only at h
  split at h
  · simp at h
  · split at h
    · simp at h
    · split at h
      · simp at h
      · exact h

/-- A successful `deploy_postgres_container` returns the runtime-assigned
name of the database container. -/
theorem deploy_postgres_ok (env : DockerEnv) (p pw dn : String) (s : PState) (nm : String)
    (h : (deploy_postgres_container env p pw dn s).1 = .ok nm) :
    env.containersRun (postgres_run_spec p pw dn) = .ok nm := by
  unfold deploy_postgres_container at h
  dsimp only at h
  split at h
  · simp at h
  · exact deploy_postgres_try_ok env p pw dn _ nm (wrap_api_error_ok _ _ _ h)

/-- A successful `deploy_main_container` returns the runtime-assigned name
of the application container. -/
theorem deploy_main_ok (env : DockerEnv) (p : String) (hp : Nat) (pw dn : String)
    (s : PState) (nm : String)
    (h : (deploy_main_container env p hp pw dn s).1 = .ok nm) :
    env.containersRun (main_run_spec p hp pw dn) = .ok nm := by
  unfold deploy_main_container at h
  dsimp only at h
  split at h
  · simp at h
  · exact deploy_main_try_ok env p hp pw dn _ nm (wrap_api_error_ok _ _ _ h)

/-- Unfolding equation for `create_container` in terms of the two deploy
steps and the session operations. -/
theorem create_container_eq (env : DockerEnv) (uid : Nat) (plan : String) (s : PState) :
    create_container env uid plan s =
      match deploy_postgres_container env ("cyber_" ++ Nat.repr uid) "db1"
          ("db_" ++ Nat.repr uid) s with
      | (.error _, s1) => (none, s1)
      | (.ok pg_name, s1) =>
        match deploy_main_container env ("cyber_" ++ Nat.repr uid) (5000 + uid) "db1"
            ("db_" ++ Nat.repr uid) s1 with
        | (.error _, s2) => (none, s2)
        | (.ok main_name, s2) =>
          (some main_name,
            session_commit (session_add
              ⟨uid, pg_name, 5432, "db_" ++ Nat.repr uid, plan, "running"⟩
              (session_add
                ⟨uid, main_name, 5000 + uid, "db_" ++ Nat.repr uid, plan, "running"⟩ s2))) :=
  rfl

/-- C2: for every tenant, plan and runtime behaviour, create_container
catches every exception raised during provisioning at the top level and
returns an absent result with persistence untouched instead of
propagating; it never reports partial success. -/
theorem create_container_catches (env : DockerEnv) (user_id : Nat) (plan : String)
    (s : PState) :
    (((create_container env user_id plan s).1 = none ∧
      (create_container env user_id plan s).2.dbSt = s.dbSt) ∨
     (∃ nm, (create_container env user_id plan s).1 = some nm)) ∧
    (∀ e s2, deploy_postgres_container env ("cyber_" ++ Nat.repr user_id) "db1"
        ("db_" ++ Nat.repr user_id) s = (.error e, s2) →
      create_container env user_id plan s = (none, s2)) ∧
    (∀ pg s2 e s3, deploy_postgres_container env ("cyber_" ++ Nat.repr user_id) "db1"
        ("db_" ++ Nat.repr user_id) s = (.ok pg, s2) →
      deploy_main_container env ("cyber_" ++ Nat.repr user_id) (5000 + user_id) "db1"
        ("db_" ++ Nat.repr user_id) s2 = (.error e, s3) →
      create_container env user_id plan s = (none, s3)) := by
  refine ⟨?_, ?_, ?_⟩
  · rcases hpg : deploy_postgres_container env ("cyber_" ++ Nat.repr user_id) "db1"
        ("db_" ++ Nat.repr user_id) s with ⟨x, sA⟩
    cases x with
    | error e =>
      left
      rw [create_container_eq, hpg]
      constructor
      · rfl
      · have := deploy_postgres_dbSt env ("cyber_" ++ Nat.repr user_id) "db1"
          ("db_" ++ Nat.repr user_id) s
        rw [hpg] at this
        exact this
    | ok pg =>
      have hA : sA.dbSt = s.dbSt := by
        have := deploy_postgres_dbSt env ("cyber_" ++ Nat.repr user_id) "db1"
          ("db_" ++ Nat.repr user_id) s
        rw [hpg] at this
        exact this
      rcases hmn : deploy_main_container env ("cyber_" ++ Nat.repr user_id) (5000 + user_id)
          "db1" ("db_" ++ Nat.repr user_id) sA with ⟨y, sB⟩
      cases y with
      | error e =>
        left
        rw [create_container_eq, hpg]
        dsimp only
        rw [hmn]
        constructor
        · rfl
        · have := deploy_main_dbSt env ("cyber_" ++ Nat.repr user_id) (5000 + user_id)
            "db1" ("db_" ++ Nat.repr user_id) sA
          rw [hmn] at this
          exact this.trans hA
      | ok mainName =>
        right
        refine ⟨mainName, ?_⟩
        rw [create_container_eq, hpg]
        dsimp only
        rw [hmn]
  · intro e s2 hpg
    rw [create_container_eq, hpg]
  · intro pg s2 e s3 hpg hmn
    rw [create_container_eq, hpg]
    dsimp only
    rw [hmn]

/-- Witness for C2: a failing `containers.run` yields an absent result. -/
theorem create_container_catches_witness :
    create_container failEnv 7 "basic" s0 = (none,
      (create_container failEnv 7 "basic" s0).2) := by
  have h := (create_container_catches failEnv 7 "basic" s0).2.1
  have hpg : deploy_postgres_container failEnv ("cyber_" ++ Nat.repr 7) "db1"
      ("db_" ++ Nat.repr 7) s0 =
      ((deploy_postgres_container failEnv ("cyber_" ++ Nat.repr 7) "db1"
        ("db_" ++ Nat.repr 7) s0).1,
       (deploy_postgres_container failEnv ("cyber_" ++ Nat.repr 7) "db1"
        ("db_" ++ Nat.repr 7) s0).2) := rfl
  have := h (PyExc.generic "Failed to deploy Postgres: boom")
    (deploy_postgres_container failEnv ("cyber_" ++ Nat.repr 7) "db1"
      ("db_" ++ Nat.repr 7) s0).2 (by decide)
  rw [this]

/-- C1: a successful create_container persists exactly two records,
committed together in one commit: one for the database container with port
5432 and one for the application container with the derived host port,
both with status running; the returned value is the runtime-assigned name
of the application container. -/
theorem create_container_success (env : DockerEnv) (user_id : Nat) (plan : String) (s : PState)
    (hpend : s.dbSt.pending = []) (nm : String)
    (h : (create_container env user_id plan s).1 = some nm) :
    env.containersRun (main_run_spec ("cyber_" ++ Nat.repr user_id) (5000 + user_id) "db1"
      ("db_" ++ Nat.repr user_id)) = .ok nm ∧
    ∃ pg_nm,
      env.containersRun (postgres_run_spec ("cyber_" ++ Nat.repr user_id) "db1"
        ("db_" ++ Nat.repr user_id)) = .ok pg_nm ∧
      (create_container env user_id plan s).2.dbSt.committed =
        s.dbSt.committed ++
          [⟨user_id, nm, 5000 + user_id, "db_" ++ Nat.repr user_id, plan, "running"⟩,
           ⟨user_id, pg_nm, 5432, "db_" ++ Nat.repr user_id, plan, "running"⟩] ∧
      (create_container env user_id plan s).2.dbSt.pending = [] ∧
      (create_container env user_id plan s).2.dbSt.commitCount = s.dbSt.commitCount + 1 := by
  rcases hpg : deploy_postgres_container env ("cyber_" ++ Nat.repr user_id) "db1"
      ("db_" ++ Nat.repr user_id) s with ⟨x, sA⟩
  cases x with
  | error e =>
    rw [create_container_eq, hpg] at h
    simp at h
  | ok pg =>
    have hA : sA.dbSt = s.dbSt := by
      have := deploy_postgres_dbSt env ("cyber_" ++ Nat.repr user_id) "db1"
        ("db_" ++ Nat.repr user_id) s
      rw [hpg] at this
      exact this
    rcases hmn : deploy_main_container env ("cyber_" ++ Nat.repr user_id) (5000 + user_id)
        "db1" ("db_" ++ Nat.repr user_id) sA with ⟨y, sB⟩
    cases y with
    | error e =>
      rw [create_container_eq, hpg] at h
      dsimp only at h
      rw [hmn] at h
      simp at h
    | ok mainName =>
      have hB : sB.dbSt = s.dbSt := by
        have := deploy_main_dbSt env ("cyber_" ++ Nat.repr user_id) (5000 + user_id)
          "db1" ("db_" ++ Nat.repr user_id) sA
        rw [hmn] at this
        exact this.trans hA
      rw [create_container_eq, hpg] at h
      dsimp only at h
      rw [hmn] at h
      have hnm : mainName = nm := by simpa using h
      subst hnm
      constructor
      · exact deploy_main_ok env _ _ _ _ sA mainName (by rw [hmn])
      · refine ⟨pg, deploy_postgres_ok env _ _ _ s pg (by rw [hpg]), ?_, ?_, ?_⟩
        · rw [create_container_eq, hpg]
          dsimp only
          rw [hmn]
          dsimp only
          simp [session_commit, session_add, hB, hpend]
        · rw [create_container_eq, hpg]
          dsimp only
          rw [hmn]
          rfl
        · rw [create_container_eq, hpg]
          dsimp only
          rw [hmn]
          dsimp only
          simp [session_commit, session_add, hB]

/-- Witness for C1: a fully successful provisioning run for tenant 7. -/
theorem create_container_success_witness :
    happyEnv.containersRun (main_run_spec ("cyber_" ++ Nat.repr 7) (5000 + 7) "db1"
      ("db_" ++ Nat.repr 7)) = .ok "cyber_7_cyber" ∧
    (create_container happyEnv 7 "basic" s0).2.dbSt.pending = [] ∧
    (create_container happyEnv 7 "basic" s0).2.dbSt.commitCount = s0.dbSt.commitCount + 1 := by
  obtain ⟨h1, pg, h2, h3, h4, h5⟩ := create_container_success happyEnv 7 "basic" s0 rfl
    "cyber_7_cyber" (by decide)
  exact ⟨h1, h4, h5⟩

/-- C9: two create_container calls with the same tenant id and different
plans issue identical runtime calls (same trace, hence same network,
volume, image, names, port and container environment) and return the same
result; the plan value only appears in the plan field of the persisted
records (erasing it makes the persisted states equal). -/
theorem create_container_plan_independent (env : DockerEnv) (user_id : Nat)
    (plan1 plan2 : String) (s : PState) :
    (create_container env user_id plan1 s).1 = (create_container env user_id plan2 s).1 ∧
    (create_container env user_id plan1 s).2.trace =
      (create_container env user_id plan2 s).2.trace ∧
    (create_container env user_id plan1 s).2.dbSt.committed.map stripPlan =
      (create_container env user_id plan2 s).2.dbSt.committed.map stripPlan ∧
    (create_container env user_id plan1 s).2.dbSt.pending.map stripPlan =
      (create_container env user_id plan2 s).2.dbSt.pending.map stripPlan ∧
    (create_container env user_id plan1 s).2.dbSt.commitCount =
      (create_container env user_id plan2 s).2.dbSt.commitCount := by
  rw [create_container_eq env user_id plan1 s, create_container_eq env user_id plan2 s]
  rcases hpg : deploy_postgres_container env ("cyber_" ++ Nat.repr user_id) "db1"
      ("db_" ++ Nat.repr user_id) s with ⟨x, sA⟩
  cases x with
  | error e => exact ⟨rfl, rfl, rfl, rfl, rfl⟩
  | ok pg =>
    dsimp only
    rcases hmn : deploy_main_container env ("cyber_" ++ Nat.repr user_id) (5000 + user_id)
        "db1" ("db_" ++ Nat.repr user_id) sA with ⟨y, sB⟩
    cases y with
    | error e => exact ⟨rfl, rfl, rfl, rfl, rfl⟩
    | ok mainName =>
      dsimp only
      refine ⟨rfl, rfl, ?_, rfl, rfl⟩
      simp [session_commit, session_add, stripPlan]
